import Mathlib

/-!
Verification of the freeipa repository excerpt: a shallow embedding of
`install/ui/group.js` (group entity declaration, non-posix checkbox widget,
group adder dialog), `install/ui/src/freeipa/_base/construct.js`
(`construct.is_constructor`), and the ACI policy values carried by
`install/updates/20-aci.update` and the replica-administration update data.
-/

namespace Freeipa

/-! ## JavaScript value model for construct.js

`construct.is_constructor` inspects `typeof obj` and `typeof obj.extend`.
We model JavaScript values with enough structure to express both: the
`typeof` tags, property lookup on objects and functions, and the fact that
property access on `null`/`undefined` raises a TypeError while property
access on boxed primitives yields `undefined`.
-/

/-- The possible results of the JavaScript `typeof` operator
(`typeof null` is `"object"`). -/
inductive JSTy where
  | undefined_ty
  | object_ty
  | boolean_ty
  | number_ty
  | string_ty
  | function_ty
deriving DecidableEq

/-- A JavaScript value: `undefined`, `null`, primitives, plain objects and
functions; objects and functions carry their own properties as an
association list. -/
inductive JSValue where
  | undef : JSValue
  | jsnull : JSValue
  | boolean : Bool → JSValue
  | number : Int → JSValue
  | strVal : String → JSValue
  | object : List (String × JSValue) → JSValue
  | func : List (String × JSValue) → JSValue

/-- The `typeof` operator on the model. -/
def typeofJS : JSValue → JSTy
  | JSValue.undef => JSTy.undefined_ty
  | JSValue.jsnull => JSTy.object_ty
  | JSValue.boolean _ => JSTy.boolean_ty
  | JSValue.number _ => JSTy.number_ty
  | JSValue.strVal _ => JSTy.string_ty
  | JSValue.object _ => JSTy.object_ty
  | JSValue.func _ => JSTy.function_ty

/-- Own-property lookup; a missing property reads as `undefined`. -/
def lookupProp : List (String × JSValue) → String → JSValue
  | [], _ => JSValue.undef
  | (k, v) :: rest, key => if k = key then v else lookupProp rest key

/-- Property access `obj.key`: raises a TypeError on `null`/`undefined`,
yields `undefined` on boxed primitives, and looks up own properties on
objects and functions. -/
def getProp : JSValue → String → Except String JSValue
  | JSValue.undef, _ => Except.error "TypeError: cannot read property of undefined"
  | JSValue.jsnull, _ => Except.error "TypeError: cannot read property of null"
  | JSValue.boolean _, _ => Except.ok JSValue.undef
  | JSValue.number _, _ => Except.ok JSValue.undef
  | JSValue.strVal _, _ => Except.ok JSValue.undef
  | JSValue.object props, key => Except.ok (lookupProp props key)
  | JSValue.func props, key => Except.ok (lookupProp props key)

/-- `construct.is_constructor(obj)` from construct.js:
`typeof obj === 'function' && typeof obj.extend === 'function'`.
The `&&` short-circuits, so `obj.extend` is only read when the first
`typeof` check succeeded. -/
def is_constructor (obj : JSValue) : Except String Bool :=
  if typeofJS obj = JSTy.function_ty then do
    let e ← getProp obj ("extend")
    pure (decide (typeofJS e = JSTy.function_ty))
  else
    pure false

/-! ## Group widget and adder dialog state model (group.js)

The gidnumber field of the adder dialog is modelled by its user-visible
state: the current value, the value `reset()` restores (the field's loaded
value), and the enabled flag. `on_posix_change` receives the value-changed
notification (a JavaScript array, modelled as `List Bool`; a missing first
element reads as falsy, as `value[0]` would be `undefined`).
-/

/-- User-visible state of a dialog field such as gidnumber. -/
structure FieldState where
  value : Option String
  loaded_value : Option String
  enabled : Bool
deriving DecidableEq

/-- `field.reset()`: restore the field's value from its loaded value. -/
def field_reset (f : FieldState) : FieldState :=
  { f with value := f.loaded_value }

/-- `field.set_enabled(b)`. -/
def field_set_enabled (b : Bool) (f : FieldState) : FieldState :=
  { f with enabled := b }

/-- `IPA.group_adder_dialog.on_posix_change(value)` acting on the gidnumber
field: `if (value[0]) gid_field.reset(); gid_field.set_enabled(!value[0]);`.
`value[0]` on an empty array is `undefined`, which is falsy, hence
`List.headD false`. -/
def on_posix_change (value : List Bool) (gid_field : FieldState) : FieldState :=
  let gid_field := if value.headD false then field_reset gid_field else gid_field
  field_set_enabled (!(value.headD false)) gid_field

/-- A synchronous sequence of value-changed notifications delivered to
`on_posix_change`, folded over the gidnumber field state in order. -/
def run_notifications (notifications : List (List Bool)) (gid_field : FieldState) : FieldState :=
  notifications.foldl (fun st v => on_posix_change v st) gid_field

/-- `IPA.group_nonposix_checkbox_widget.save()`:
`var value = that.checkbox_save()[0]; return [!value];`.
The argument is the array returned by the inherited `checkbox_save()`;
`[0]` on an empty array is `undefined` and `!undefined` is `true`, which
`List.headD false` reproduces. -/
def group_nonposix_save (checkbox_save_result : List Bool) : List Bool :=
  [!(checkbox_save_result.headD false)]

/-- `that.fields.get_field(name)` with fields kept as an association list;
a missing field would make the subsequent method call throw, modelled as an
error. -/
def get_field (fields : List (String × FieldState)) (name : String) : Except String FieldState :=
  match fields with
  | [] => Except.error "TypeError: field not found"
  | (k, v) :: rest => if k = name then Except.ok v else get_field rest name

/-- `on_posix_change` as run against the dialog's field collection, making
the only fallible step (`get_field('gidnumber')`) explicit. -/
def on_posix_change_run (value : List Bool) (fields : List (String × FieldState)) :
    Except String FieldState := do
  let gid_field ← get_field fields ("gidnumber")
  let gid_field := if value.headD false then field_reset gid_field else gid_field
  pure (field_set_enabled (!(value.headD false)) gid_field)

/-- A concrete gidnumber field state used for witnesses. -/
def sample_gid_field : FieldState :=
  { value := some "1000", loaded_value := none, enabled := true }

/-! ## Declarative facet/field table of IPA.group.entity.init (group.js)

`init()` issues a chain of builder calls; each call's specification object
is transcribed verbatim as data.
-/

/-- A label given by a message reference rather than a literal string;
the adder dialog labels the nonposix checkbox with
`IPA.messages.objects.group.posix`. -/
inductive LabelRef where
  | messages_objects_group_posix
deriving DecidableEq

/-- A field specification: a bare name, or an object with a type and
optional label / checked entries. -/
structure FieldSpec where
  name : String
  type : Option String := none
  label : Option LabelRef := none
  checked : Option Bool := none
deriving DecidableEq

/-- A details-facet section: a name and its field list. -/
structure SectionSpec where
  name : String
  fields : List FieldSpec
deriving DecidableEq

/-- A column specification of an association facet's adder columns. -/
structure ColumnSpec where
  name : String
  width : Option String := none
  primary_key : Bool := false
deriving DecidableEq

/-- An association-facet specification as passed to the builder. -/
structure AssocFacetSpec where
  name : String
  columns : List String := []
  adder_columns : List ColumnSpec := []
  serial_associator : Bool := false
  add_method : Option String := none
  remove_method : Option String := none
deriving DecidableEq

/-- One call in the `that.builder` chain of `IPA.group.entity.init`. -/
inductive BuilderCall where
  | search_facet (columns : List String)
  | details_facet (sections : List SectionSpec)
  | association_facet (spec : AssocFacetSpec)
  | standard_association_facets
  | adder_dialog (fields : List FieldSpec)
deriving DecidableEq

/-- The field list of the adder dialog spec in `IPA.group.entity.init`. -/
def group_adder_dialog_fields : List FieldSpec :=
  [ { name := "cn" },
    { name := "description", type := some "textarea" },
    { name := "nonposix", type := some "nonposix_checkbox",
      label := some LabelRef.messages_objects_group_posix,
      checked := some true },
    { name := "gidnumber" } ]

/-- The builder-call chain issued by `IPA.group.entity.init`, transcribed
from group.js in source order. -/
def group_entity_init_calls : List BuilderCall :=
  [ BuilderCall.search_facet ["cn", "gidnumber", "description"],
    BuilderCall.details_facet
      [ { name := "details",
          fields := [ { name := "cn" },
                      { name := "description", type := some "textarea" },
                      { name := "gidnumber" } ] } ],
    BuilderCall.association_facet
      { name := "member_user",
        columns := ["uid", "uidnumber", "mail", "telephonenumber", "title"],
        adder_columns := [ { name := "cn", width := some "100px" },
                           { name := "uid", width := some "100px", primary_key := true } ] },
    BuilderCall.association_facet { name := "memberof_group", serial_associator := true },
    BuilderCall.association_facet { name := "memberof_netgroup", serial_associator := true },
    BuilderCall.association_facet { name := "memberof_role", serial_associator := true },
    BuilderCall.association_facet
      { name := "memberof_hbacrule", serial_associator := true,
        add_method := some "add_user", remove_method := some "remove_user" },
    BuilderCall.association_facet
      { name := "memberof_sudorule", serial_associator := true,
        add_method := some "add_user", remove_method := some "remove_user" },
    BuilderCall.standard_association_facets,
    BuilderCall.adder_dialog group_adder_dialog_fields ]

/-! ## ACI grammar checker

The claim's grammar for an ACI value: zero or more target clauses
(`targetfilter`, `targetattr` or `target`, an `=` or `!=` operator, and a
quoted or unquoted value), followed by a parenthesized body holding a
`version 3.0` declaration, the keyword `acl` with a quoted name, exactly
one of `allow`/`deny` with a parenthesized comma-separated permission-verb
list drawn from read/write/search/compare/add/delete/all, and a bind rule
that is a `userdn`, `groupdn` or `userattr` comparison with a quoted value,
terminated by `;)`. The checker works on the character list of the value;
each piece consumes a prefix and returns the remaining suffix.
-/

/-- Whitespace inside an ACI value. -/
def isWsChar (c : Char) : Bool := c = ' ' || c = '\t'

/-- Drop leading whitespace. -/
def skipWs : List Char → List Char
  | c :: cs => if isWsChar c then skipWs cs else c :: cs
  | [] => []

/-- Consume the literal `lit` from the front, or fail. -/
def matchLit : List Char → List Char → Option (List Char)
  | [], cs => some cs
  | _ :: _, [] => none
  | l :: ls, c :: cs => if c = l then matchLit ls cs else none

/-- Consume one expected character, or fail. -/
def expectChar (c : Char) : List Char → Option (List Char)
  | x :: cs => if x = c then some cs else none
  | [] => none

/-- Consume up to and including the closing quote of a quoted value whose
opening quote has already been consumed. -/
def scanQuoted : List Char → Option (List Char)
  | [] => none
  | c :: cs => if c = '"' then some cs else scanQuoted cs

/-- Consume an unquoted target-clause value up to and including the
closing parenthesis. -/
def scanUnquotedValue : List Char → Option (List Char)
  | [] => none
  | c :: cs => if c = ')' then some cs else scanUnquotedValue cs

/-- Consume a comparison operator, `=` or `!=`. -/
def matchOp (cs : List Char) : Option (List Char) :=
  match cs with
  | '!' :: '=' :: rest => some rest
  | '=' :: rest => some rest
  | _ => none

/-- Consume the first literal of `lits` that matches, or fail. -/
def matchOneOf (lits : List (List Char)) (cs : List Char) : Option (List Char) :=
  match lits with
  | [] => none
  | l :: ls =>
    match matchLit l cs with
    | some rest => some rest
    | none => matchOneOf ls cs

/-- Consume one of the target-clause keywords (longest first, since
`target` is a proper prefix of the other two). -/
def matchTargetKeyword (cs : List Char) : Option (List Char) :=
  matchOneOf [("targetfilter".data), ("targetattr".data), ("target".data)] cs

/-- Consume a target-clause value and its closing parenthesis: a quoted
string (which may itself contain parentheses) or raw text up to `)`. -/
def parseTargetValue (cs : List Char) : Option (List Char) :=
  match skipWs cs with
  | '"' :: rest =>
    match scanQuoted rest with
    | some rest2 => expectChar ')' (skipWs rest2)
    | none => none
  | rest => scanUnquotedValue rest

/-- Consume one target clause `(keyword op value)`. -/
def parseTargetClause (cs : List Char) : Option (List Char) :=
  match expectChar '(' (skipWs cs) with
  | none => none
  | some r1 =>
    match matchTargetKeyword (skipWs r1) with
    | none => none
    | some r2 =>
      match matchOp (skipWs r2) with
      | none => none
      | some r3 => parseTargetValue r3

/-- The permission-verb vocabulary of the grammar. -/
def permVerbs : List (List Char) :=
  [("read".data), ("write".data), ("search".data), ("compare".data),
   ("add".data), ("delete".data), ("all".data)]

/-- Consume a non-empty comma-separated permission-verb list followed by
its closing parenthesis; fueled by the remaining input length. -/
def parsePermList : Nat → List Char → Option (List Char)
  | 0, _ => none
  | fuel + 1, cs =>
    match matchOneOf permVerbs (skipWs cs) with
    | none => none
    | some r1 =>
      match skipWs r1 with
      | ',' :: rest => parsePermList fuel rest
      | ')' :: rest => some rest
      | _ => none

/-- Consume the `acl` keyword; when `relaxed` is set the legacy spelling
`aci` is accepted as well. -/
def matchAclKeyword (relaxed : Bool) (cs : List Char) : Option (List Char) :=
  match matchLit ("acl".data) cs with
  | some rest => some rest
  | none => if relaxed then matchLit ("aci".data) cs else none

/-- Consume the body opening `(version 3.0;`. -/
def parseVersionDecl (cs : List Char) : Option (List Char) :=
  (expectChar '(' (skipWs cs)).bind fun r0 =>
  (matchLit ("version".data) (skipWs r0)).bind fun r1 =>
  (matchLit ("3.0".data) (skipWs r1)).bind fun r2 =>
  expectChar ';' (skipWs r2)

/-- Consume the named acl `acl "name";`. -/
def parseAclName (relaxed : Bool) (cs : List Char) : Option (List Char) :=
  (matchAclKeyword relaxed (skipWs cs)).bind fun r0 =>
  (expectChar '"' (skipWs r0)).bind fun r1 =>
  (scanQuoted r1).bind fun r2 =>
  expectChar ';' (skipWs r2)

/-- Consume the permission grant `allow (verbs)` or `deny (verbs)`. -/
def parsePermGrant (cs : List Char) : Option (List Char) :=
  (matchOneOf [("allow".data), ("deny".data)] (skipWs cs)).bind fun r0 =>
  (expectChar '(' (skipWs r0)).bind fun r1 =>
  parsePermList (r1.length + 1) r1

/-- Consume the bind rule `userdn|groupdn|userattr op "value"` and the
closing `;)` of the body. -/
def parseBindRule (cs : List Char) : Option (List Char) :=
  (matchOneOf [("userdn".data), ("groupdn".data), ("userattr".data)] (skipWs cs)).bind fun r0 =>
  (matchOp (skipWs r0)).bind fun r1 =>
  (expectChar '"' (skipWs r1)).bind fun r2 =>
  (scanQuoted r2).bind fun r3 =>
  (expectChar ';' (skipWs r3)).bind fun r4 =>
  expectChar ')' (skipWs r4)

/-- Consume the parenthesized ACI body: version declaration, named acl,
allow/deny with permission verbs, and a userdn/groupdn/userattr bind rule,
closed by `;)`. -/
def parseBody (relaxed : Bool) (cs : List Char) : Option (List Char) :=
  (parseVersionDecl cs).bind fun r0 =>
  (parseAclName relaxed r0).bind fun r1 =>
  (parsePermGrant r1).bind fun r2 =>
  parseBindRule r2

/-- Whole ACI value: zero or more target clauses, then the body, then
nothing but whitespace. The body is recognized by its `(version` opening;
fueled by the remaining input length (one unit per target clause). -/
def parseACI (relaxed : Bool) : Nat → List Char → Bool
  | 0, _ => false
  | fuel + 1, cs =>
    match skipWs cs with
    | '(' :: rest =>
      if (matchLit ("version".data) (skipWs rest)).isSome then
        match parseBody relaxed (skipWs cs) with
        | some rest2 => (skipWs rest2).isEmpty
        | none => false
      else
        match parseTargetClause (skipWs cs) with
        | some rest2 => parseACI relaxed fuel rest2
        | none => false
    | _ => false

/-- The claim's grammar exactly as stated (acl keyword only). -/
def checkACI (s : String) : Bool := parseACI false (s.length + 1) s.data

/-- The grammar with the legacy `aci` spelling of the acl keyword also
accepted. -/
def checkACIRelaxed (s : String) : Bool := parseACI true (s.length + 1) s.data

/-- The one ACI value whose body names the acl with the legacy keyword
`aci` instead of `acl`: the obsolete "replica admins read access" entry
removed at `cn=config`. -/
def obsolete_replica_admins_aci : String :=
  "(targetattr != aci)(version 3.0; aci \"replica admins read access\"; allow (read, search, compare) groupdn = \"ldap:///cn=Modify Replication Agreements,cn=permissions,cn=pbac,$SUFFIX\";)"

/-- Every ACI value added or removed by `20-aci.update` and the
replica-administration update entries, transcribed in file order. -/
def aci_values : List String := [
  -- src/install/updates/20-aci.update (add:aci)
    "(targetfilter = \"(objectClass=mepManagedEntry)\")(targetattr = \"*\")(version 3.0; acl \"Managed netgroups cannot be modified\"; deny (write) userdn = \"ldap:///all\";)",
  -- src/install/updates/20-aci.update (add:aci)
    "(targetattr=\"userPassword || krbPrincipalKey\")(version 3.0; acl \"Search existence of password and kerberos keys\"; allow(search) userdn = \"ldap:///all\";)",
  -- src/install/updates/20-aci.update (add:aci)
    "(targetattr = \"ipasshpubkey\")(version 3.0;acl \"selfservice:Users can manage their own SSH public keys\";allow (write) userdn = \"ldap:///self\";)",
  -- src/install/updates/20-aci.update (add:aci)
    "(targetattr=\"ipasshpubkey\")(version 3.0; acl \"Hosts can modify their own SSH public keys\"; allow(write) userdn = \"ldap:///self\";)",
  -- src/install/updates/20-aci.update (add:aci)
    "(targetattr=\"ipasshpubkey\")(version 3.0; acl \"Hosts can manage other host SSH public keys\"; allow(write) userattr = \"parent[0,1].managedby#USERDN\";)",
  -- src/install/updates/20-aci.update (add:aci)
    "(targetfilter=\"(objectclass=domain)\")(targetattr=\"objectclass || dc || info || nisDomain || associatedDomain\")(version 3.0; acl \"Anonymous read access to DIT root\"; allow(read, search, compare) userdn = \"ldap:///anyone\";)",
  -- src/install/updates/20-aci.update (add:aci)
    "(targetfilter=\"(&(objectclass=nsContainer)(!(objectclass=krbPwdPolicy)))\")(target!=\"ldap:///cn=masters,cn=ipa,cn=etc,$SUFFIX\")(targetattr=\"objectclass || cn\")(version 3.0; acl \"Anonymous read access to containers\"; allow(read, search, compare) userdn = \"ldap:///anyone\";)",
  -- src/install/updates/20-aci.update (remove:aci)
    "(targetfilter=\"(objectclass=nsContainer)\")(version 3.0; acl \"Deny read access to replica configuration\"; deny(read, search, compare) userdn = \"ldap:///anyone\";)",
  -- src/install/updates/20-aci.update (add:aci)
    "(targetfilter=\"(objectclass=nsContainer)\")(targetattr=\"objectclass || cn\")(version 3.0; acl \"Read access to masters\"; allow(read, search, compare) userdn = \"ldap:///all\";)",
  -- src/install/updates/20-aci.update (add:aci)
    "(targetattr = \"cn || objectclass\")(targetfilter = \"(|(objectclass=krbrealmcontainer)(objectclass=krbcontainer))\")(version 3.0;acl \"Anonymous read access to Kerberos containers\";allow (read,compare,search) userdn = \"ldap:///anyone\";)",
  -- src/install/updates/20-aci.update (remove:aci)
    "(targetattr != \"userPassword || krbPrincipalKey || sambaLMPassword || sambaNTPassword || passwordHistory || krbMKey || krbPrincipalName || krbCanonicalName || krbUPEnabled || krbTicketPolicyReference || krbPrincipalExpiration || krbPasswordExpiration || krbPwdPolicyReference || krbPrincipalType || krbPwdHistory || krbLastPwdChange || krbPrincipalAliases || krbExtraData || krbLastSuccessfulAuth || krbLastFailedAuth || krbLoginFailedCount || krbTicketFlags || ipaUniqueId || memberOf || serverHostName || enrolledBy\")(version 3.0; acl \"Admin can manage any entry\"; allow (all) groupdn = \"ldap:///cn=admins,cn=groups,cn=accounts,$SUFFIX\";)",
  -- src/install/updates/20-aci.update (remove:aci)
    "(targetattr != \"userPassword || krbPrincipalKey || sambaLMPassword || sambaNTPassword || passwordHistory || krbMKey || krbPrincipalName || krbCanonicalName || krbUPEnabled || krbTicketPolicyReference || krbPrincipalExpiration || krbPasswordExpiration || krbPwdPolicyReference || krbPrincipalType || krbPwdHistory || krbLastPwdChange || krbPrincipalAliases || krbExtraData || krbLastSuccessfulAuth || krbLastFailedAuth || krbLoginFailedCount || krbTicketFlags || ipaUniqueId || memberOf || serverHostName || enrolledBy || ipaNTHash\")(version 3.0; acl \"Admin can manage any entry\"; allow (all) groupdn = \"ldap:///cn=admins,cn=groups,cn=accounts,$SUFFIX\";)",
  -- src/install/updates/20-aci.update (remove:aci)
    "(targetattr != \"userPassword || krbPrincipalKey || sambaLMPassword || sambaNTPassword || passwordHistory || krbMKey || krbPrincipalName || krbCanonicalName || krbUPEnabled || krbTicketPolicyReference || krbPrincipalExpiration || krbPasswordExpiration || krbPwdPolicyReference || krbPrincipalType || krbPwdHistory || krbLastPwdChange || krbPrincipalAliases || krbExtraData || krbLastSuccessfulAuth || krbLastFailedAuth || krbLoginFailedCount || ipaUniqueId || memberOf || serverHostName || enrolledBy || ipaNTHash\")(version 3.0; acl \"Admin can manage any entry\"; allow (all) groupdn = \"ldap:///cn=admins,cn=groups,cn=accounts,$SUFFIX\";)",
  -- src/install/updates/20-aci.update (remove:aci)
    "(targetattr != \"userPassword || krbPrincipalKey || sambaLMPassword || sambaNTPassword || passwordHistory || krbMKey || krbPrincipalName || krbCanonicalName || krbUPEnabled || krbTicketPolicyReference || krbPasswordExpiration || krbPwdPolicyReference || krbPrincipalType || krbPwdHistory || krbLastPwdChange || krbPrincipalAliases || krbExtraData || krbLastSuccessfulAuth || krbLastFailedAuth || krbLoginFailedCount || ipaUniqueId || memberOf || serverHostName || enrolledBy || ipaNTHash\")(version 3.0; acl \"Admin can manage any entry\"; allow (all) groupdn = \"ldap:///cn=admins,cn=groups,cn=accounts,$SUFFIX\";)",
  -- src/install/updates/20-aci.update (add:aci)
    "(targetattr != \"userPassword || krbPrincipalKey || sambaLMPassword || sambaNTPassword || passwordHistory || krbMKey || krbPrincipalName || krbCanonicalName || krbPasswordExpiration || krbPwdHistory || krbLastPwdChange || krbExtraData || krbLastSuccessfulAuth || krbLastFailedAuth || ipaUniqueId || memberOf || enrolledBy || ipaNTHash || ipaProtectedOperation\")(version 3.0; acl \"Admin can manage any entry\"; allow (all) groupdn = \"ldap:///cn=admins,cn=groups,cn=accounts,$SUFFIX\";)",
  -- src/install/updates/20-aci.update (remove:aci)
    "(targetattr = \"userPassword || krbPrincipalKey || sambaLMPassword || sambaNTPassword || passwordHistory\")(version 3.0; acl \"Admins can write passwords\"; allow (add,delete,write) groupdn=\"ldap:///cn=admins,cn=groups,cn=accounts,$SUFFIX\";)",
  -- src/install/updates/20-aci.update (add:aci)
    "(targetattr = \"userPassword || krbPrincipalKey || sambaLMPassword || sambaNTPassword || passwordHistory || ipaNTHash\")(version 3.0; acl \"Admins can write passwords\"; allow (add,delete,write) groupdn=\"ldap:///cn=admins,cn=groups,cn=accounts,$SUFFIX\";)",
  -- src/install/updates/20-aci.update (add:aci)
    "(targetfilter = \"(objectClass=krbPwdPolicy)\")(targetattr = \"krbMaxPwdLife || krbMinPwdLife || krbPwdMinDiffChars || krbPwdMinLength || krbPwdHistoryLength\")(version 3.0;acl \"Admins can write password policies\"; allow (read, search, compare, write) groupdn = \"ldap:///cn=admins,cn=groups,cn=accounts,$SUFFIX\";)",
  -- src/install/updates/20-aci.update (add:aci)
    "(targetattr=\"ipaUniqueId || memberOf || enrolledBy || krbExtraData || krbPrincipalName || krbCanonicalName || krbPasswordExpiration || krbLastPwdChange || krbLastSuccessfulAuth || krbLastFailedAuth\")(version 3.0; acl \"Admin read-only attributes\"; allow (read, search, compare) groupdn = \"ldap:///cn=admins,cn=groups,cn=accounts,$SUFFIX\";)",
  -- src/install/updates/20-aci.update (add:aci)
    "(targetattr=\"*\")(version 3.0; acl \"Admin can read all tasks\"; allow (read, compare, search) groupdn = \"ldap:///cn=admins,cn=groups,cn=accounts,$SUFFIX\";)",
  -- src/install/updates/20-aci.update (remove:aci)
    obsolete_replica_admins_aci,
  -- src/install/updates/20-aci.update (remove:aci)
    "(targetattr = \"*\")(target = \"ldap:///cn=*,cn=roles,cn=accounts,$SUFFIX\")(version 3.0; acl \"No anonymous access to roles\"; deny (read,search,compare) userdn != \"ldap:///all\";)",
  -- src/install/updates/20-aci.update (remove:aci)
    "(targetattr = \"memberOf || memberHost || memberUser\")(version 3.0; acl \"No anonymous access to member information\"; deny (read,search,compare) userdn != \"ldap:///all\";)",
  -- src/install/updates/20-aci.update (remove:aci)
    "(targetattr = \"*\")(target = \"ldap:///cn=*,ou=SUDOers,$SUFFIX\")(version 3.0; acl \"No anonymous access to sudo\"; deny (read,search,compare) userdn != \"ldap:///all\";)",
  -- src/install/updates/20-aci.update (remove:aci)
    "(targetattr = \"*\")(version 3.0; acl \"No anonymous access to hbac\"; deny (read,search,compare) userdn != \"ldap:///all\";)",
  -- src/install/updates/20-aci.update (remove:aci)
    "(targetattr = \"*\")(version 3.0; acl \"No anonymous access to sudo\"; deny (read,search,compare) userdn != \"ldap:///all\";)",
  -- src/install/updates/20-aci.update (add:aci)
    "(targetattr=\"ipaProtectedOperation;read_keys\")(version 3.0; acl \"Users allowed to retrieve keytab keys\"; allow(read) userattr=\"ipaAllowedToPerform;read_keys#USERDN\";)",
  -- src/install/updates/20-aci.update (add:aci)
    "(targetattr=\"ipaProtectedOperation;read_keys\")(version 3.0; acl \"Groups allowed to retrieve keytab keys\"; allow(read) userattr=\"ipaAllowedToPerform;read_keys#GROUPDN\";)",
  -- src/install/updates/20-aci.update (add:aci)
    "(targetattr=\"ipaProtectedOperation;write_keys\")(version 3.0; acl \"Users allowed to create keytab keys\"; allow(write) userattr=\"ipaAllowedToPerform;write_keys#USERDN\";)",
  -- src/install/updates/20-aci.update (add:aci)
    "(targetattr=\"ipaProtectedOperation;write_keys\")(version 3.0; acl \"Groups allowed to create keytab keys\"; allow(write) userattr=\"ipaAllowedToPerform;write_keys#GROUPDN\";)",
  -- src/install/updates/20-aci.update (add:aci)
    "(targetattr=\"ipaProtectedOperation;write_keys\")(version 3.0; acl \"Entities are allowed to rekey themselves\"; allow(write) userdn=\"ldap:///self\";)",
  -- src/install/updates/20-aci.update (add:aci)
    "(targetattr=\"ipaProtectedOperation;write_keys\")(version 3.0; acl \"Admins are allowed to rekey any entity\"; allow(write) groupdn = \"ldap:///cn=admins,cn=groups,cn=accounts,$SUFFIX\";)",
  -- src/install/updates/20-aci.update (add:aci)
    "(targetfilter=\"(|(objectclass=ipaHost)(objectclass=ipaService))\")(targetattr=\"ipaProtectedOperation;write_keys\")(version 3.0; acl \"Entities are allowed to rekey managed entries\"; allow(write) userattr=\"managedby#USERDN\";)",
  -- src/unnamed/part_000 (aci)
    "(targetattr=*)(version 3.0;acl \"permission:Add Replication Agreements\";allow (add) groupdn = \"ldap:///cn=Add Replication Agreements,cn=permissions,cn=pbac,$SUFFIX\";)",
  -- src/unnamed/part_000 (aci)
    "(targetattr=*)(targetfilter=\"(|(objectclass=nsds5Replica)(objectclass=nsds5replicationagreement)(objectclass=nsDSWindowsReplicationAgreement)(objectClass=nsMappingTree))\")(version 3.0; acl \"permission:Modify Replication Agreements\"; allow (read, write, search) groupdn = \"ldap:///cn=Modify Replication Agreements,cn=permissions,cn=pbac,$SUFFIX\";)",
  -- src/unnamed/part_000 (aci)
    "(targetattr=*)(targetfilter=\"(|(objectclass=nsds5replicationagreement)(objectclass=nsDSWindowsReplicationAgreement))\")(version 3.0;acl \"permission:Remove Replication Agreements\";allow (delete) groupdn = \"ldap:///cn=Remove Replication Agreements,cn=permissions,cn=pbac,$SUFFIX\";)",
  -- src/unnamed/part_000 (aci)
    "(targetattr=dnaNextRange || dnaNextValue || dnaMaxValue)(version 3.0;acl \"permission:Modify DNA Range\";allow (write) groupdn = \"ldap:///cn=Modify DNA Range,cn=permissions,cn=pbac,$SUFFIX\";)",
  -- src/unnamed/part_000 (aci)
    "(targetattr=nsslapd-readonly)(version 3.0; acl \"Allow marking the database readonly\"; allow (write) groupdn = \"ldap:///cn=Remove Replication Agreements,cn=permissions,cn=pbac,$SUFFIX\";)",
  -- src/unnamed/part_000 (aci)
    "(targetattr=*)(version 3.0; acl \"Run tasks after replica re-initialization\"; allow (add) groupdn = \"ldap:///cn=Modify Replication Agreements,cn=permissions,cn=pbac,$SUFFIX\";)",
]

/-! ## Theorems -/

/-- Claim C1: whenever the group adder dialog's `on_posix_change` handler is
invoked with a value whose first element is `true`, the gidnumber field ends
up disabled; whenever it is invoked with a value whose first element is
`false`, the gidnumber field ends up enabled. -/
theorem on_posix_change_first_element_decides_enabled
    (rest : List Bool) (f : FieldState) :
    (on_posix_change (true :: rest) f).enabled = false ∧
    (on_posix_change (false :: rest) f).enabled = true :=
  ⟨rfl, rfl⟩

/-- Claim C2: for every array returned by the underlying `checkbox_save()`,
`IPA.group_nonposix_checkbox_widget.save()` returns a one-element array
whose single element is the boolean negation of the first element of that
array, and performs no other transformation. -/
theorem group_nonposix_save_negates_head (v : Bool) (rest : List Bool) :
    group_nonposix_save (v :: rest) = [!v] :=
  rfl

/-- Claim C3 counterexample: `construct.is_constructor` is not decided by a
single type check. A function with no `extend` property is of function type
yet `is_constructor` returns `false` on it. -/
theorem is_constructor_not_single_type_check :
    typeofJS (JSValue.func []) = JSTy.function_ty ∧
    is_constructor (JSValue.func []) = Except.ok false :=
  ⟨rfl, rfl⟩

/-- Claim C3 (amended): `construct.is_constructor` is decided by two type
checks: it returns `true` exactly when `obj` is of function type and its
`extend` property is also of function type. -/
theorem is_constructor_two_type_checks (obj : JSValue) :
    is_constructor obj = Except.ok true ↔
      (typeofJS obj = JSTy.function_ty ∧
       ∃ e, getProp obj ("extend") = Except.ok e ∧ typeofJS e = JSTy.function_ty) := by
  cases obj <;>
    simp [is_constructor, typeofJS, getProp, pure, Except.pure, bind, Except.bind]

/-- Claim C5: for every finite non-empty sequence of value-change
notifications delivered synchronously to `on_posix_change`, the final
enabled/disabled state of the gidnumber field is determined solely by the
last notification (last value wins), independent of all earlier
notifications and of the starting state. -/
theorem run_notifications_last_value_wins (l : List (List Bool)) (h : l ≠ [])
    (f : FieldState) :
    (run_notifications l f).enabled = !((l.getLast?.getD []).headD false) := by
  induction l generalizing f with
  | nil => exact absurd rfl h
  | cons a t ih =>
    cases t with
    | nil => rfl
    | cons b t2 =>
      have hrun : run_notifications (a :: b :: t2) f
          = run_notifications (b :: t2) (on_posix_change a f) := rfl
      rw [hrun, ih (List.cons_ne_nil b t2) (on_posix_change a f),
        List.getLast?_cons_cons]

/-- Claim C5 witness: the last-value-wins law applied to the concrete
two-notification sequence true-then-false on a concrete field state. -/
theorem run_notifications_last_value_wins_witness :
    (run_notifications [[true], [false]] sample_gid_field).enabled
      = !((([[true], [false]] : List (List Bool)).getLast?.getD []).headD false) :=
  run_notifications_last_value_wins [[true], [false]] (by decide) sample_gid_field

/-- Claim C6: `IPA.group.entity.init` opens its builder chain with exactly
the declared facet/field table: a search facet with columns cn, gidnumber,
description in that order, then a details facet with a single section named
details whose fields are cn, a textarea description, and gidnumber in that
order; the specifications are passed through as literal data with no
further computation. -/
theorem group_init_declares_search_and_details :
    group_entity_init_calls.take 2 =
      [ BuilderCall.search_facet ["cn", "gidnumber", "description"],
        BuilderCall.details_facet
          [ { name := "details",
              fields := [ { name := "cn" },
                          { name := "description", type := some "textarea" },
                          { name := "gidnumber" } ] } ] ] :=
  rfl

/-- Claim C7: assuming the underlying widget operations are total (here:
`get_field('gidnumber')` succeeds; `checkbox_save`, `reset` and
`set_enabled` are total functions of the model), both
`group_nonposix_checkbox_widget.save()` and `on_posix_change` complete
normally, with no error or failure-propagation path. -/
theorem widget_handlers_no_failure_path (value cb : List Bool)
    (fields : List (String × FieldState))
    (h : ∃ g, get_field fields ("gidnumber") = Except.ok g) :
    (∃ r, on_posix_change_run value fields = Except.ok r) ∧
    (∃ b, group_nonposix_save cb = [b]) := by
  obtain ⟨g, hg⟩ := h
  refine ⟨⟨on_posix_change value g, ?_⟩, ⟨!(cb.headD false), rfl⟩⟩
  simp only [on_posix_change_run, hg]
  rfl

/-- Claim C7 witness: the no-failure law applied at a concrete notification,
checkbox state and field collection. -/
theorem widget_handlers_no_failure_path_witness :
    (∃ r, on_posix_change_run [true] [("gidnumber", sample_gid_field)] = Except.ok r) ∧
    (∃ b, group_nonposix_save [false] = [b]) :=
  widget_handlers_no_failure_path [true] [false] [("gidnumber", sample_gid_field)]
    ⟨sample_gid_field, rfl⟩

/-- Claim C8: `construct.is_constructor` is total and boolean-valued on
every JavaScript value: it never raises (the first `typeof` conjunct
short-circuits before any property access on a non-function, so the
TypeError branch of property access on `null`/`undefined` is unreachable),
it returns `false` on `null`, `undefined`, primitives, non-function objects
and functions lacking a function-typed `extend` property, and it returns
`true` only for functions whose `extend` property is itself a function. -/
theorem is_constructor_total_and_safe (obj : JSValue) :
    is_constructor obj =
      Except.ok (match obj with
        | JSValue.func props =>
          decide (typeofJS (lookupProp props ("extend")) = JSTy.function_ty)
        | _ => false) := by
  cases obj <;> rfl

/-- Claim C9: `on_posix_change` resets the gidnumber field's value only
when the notification's first element is `true`: a true notification resets
the field (its value becomes the loaded value) and disables it, while a
false notification enables the field and leaves its stored value unchanged. -/
theorem on_posix_change_reset_only_on_true (rest : List Bool) (f : FieldState) :
    on_posix_change (true :: rest) f =
      { f with value := f.loaded_value, enabled := false } ∧
    on_posix_change (false :: rest) f = { f with enabled := true } :=
  ⟨rfl, rfl⟩

/-- Claim C10: the adder dialog declares the nonposix checkbox checked and
labels it with the posix message, and saving the untouched (checked)
checkbox through the inverting `save()` yields `[false]`: the dialog
submits a POSIX group creation by default. -/
theorem group_adder_defaults_to_posix :
    group_adder_dialog_fields[2]? =
      some { name := "nonposix", type := some "nonposix_checkbox",
             label := some LabelRef.messages_objects_group_posix,
             checked := some true } ∧
    group_nonposix_save [true] = [false] :=
  ⟨rfl, rfl⟩

set_option maxRecDepth 100000 in
/-- Claim C4 counterexample: not every ACI value of the update files
conforms to the claimed grammar. The obsolete "replica admins read access"
entry removed at `cn=config` introduces its quoted name with the keyword
`aci` instead of `acl`, so the strict checker rejects it. -/
theorem aci_grammar_counterexample :
    obsolete_replica_admins_aci ∈ aci_values ∧
    checkACI obsolete_replica_admins_aci = false := by
  constructor
  · simp [aci_values]
  · decide

set_option maxRecDepth 100000 in
/-- Claim C4 (amended): every ACI value added or removed by the update
files conforms to the claimed grammar once the acl-name keyword is allowed
to be spelled `aci` as well as `acl` (one obsolete entry uses the legacy
spelling): zero or more target clauses, then a parenthesized body with a
version 3.0 declaration, a quoted acl name, exactly one of allow/deny over
the permission verbs read, write, search, compare, add, delete, all, and a
userdn, groupdn or userattr bind rule. -/
theorem aci_values_conform_to_grammar :
    aci_values.all checkACIRelaxed = true := by
  decide

end Freeipa
